import Mathlib

/-!
Shallow embedding of the core logic of `src/app.py` (RASCAL-ECC-GIS dashboard):
the TXT/CSV/XML parsers and the protective-action decision engine, together
with proofs of the specification claims about them.

Modelling conventions:
* Python strings are modelled as `List Char` (`Str` below); the inputs in the
  theorems are written as Lean string literals converted via `String.data`.
* Python `float` values appearing in the program are modelled as `ℚ`: every
  numeric literal and every numeric field in the claims is a short decimal,
  exactly representable, and only order comparisons and equality are used, so
  rational arithmetic coincides with IEEE double arithmetic on all inputs
  considered. Non-finite float literals (`inf`, `nan`), which no claim
  mentions, are not modelled.
* A pandas row is an association list from column name to cell value; a
  DataFrame is the list of its rows.  Python `None` is the `Value.null` cell.
* `st.warning` side effects are modelled by returning the list of emitted
  warnings alongside the frame.
* Fallible Python code (code that can raise) is modelled with `Option`.
-/

abbrev Str := List Char

/-- Python `str.split(sep)` for a non-empty separator `c :: sep`:
split at every non-overlapping occurrence of the separator, scanning left to
right; always returns at least one (possibly empty) piece.  Structural
recursion on a fuel that bounds the length of the remaining string (each step
consumes at least one character), so the definition evaluates by kernel
reduction. -/
def pySplitGo (c : Char) (sep : Str) : (fuel : ℕ) → (acc : Str) → Str → List Str
  | _, acc, [] => [acc.reverse]
  | 0, acc, s => [acc.reverse ++ s]
  | fuel + 1, acc, d :: rest =>
    if (c :: sep).isPrefixOf (d :: rest) then
      acc.reverse :: pySplitGo c sep fuel [] (rest.drop sep.length)
    else
      pySplitGo c sep fuel (d :: acc) rest

/-- Python `s.split(sep)`; on the empty separator (never used by the program)
we return `[s]`. -/
def pySplit (sep : Str) (s : Str) : List Str :=
  match sep with
  | [] => [s]
  | c :: cs => pySplitGo c cs s.length [] s

/-- Python `pat in s` (substring containment) for the non-empty patterns the
program uses: the split on `pat` has at least two pieces. -/
def pyContains (pat : Str) (s : Str) : Bool :=
  decide (2 ≤ (pySplit pat s).length)

/-- Python `s.strip()`: remove leading and trailing whitespace. -/
def pyStrip (s : Str) : Str :=
  ((s.dropWhile Char.isWhitespace).reverse.dropWhile Char.isWhitespace).reverse

/-- Digit run to a natural number (most significant first). -/
def digitsVal (ds : Str) : ℕ :=
  ds.foldl (fun n d => 10 * n + (d.toNat - 48)) 0

/-- Exponent part of a Python float literal: empty, or `e`/`E`, an optional
sign, and at least one digit, consuming the rest of the string. -/
def pyFloatExp : Str → Option ℤ
  | [] => some 0
  | e :: rest =>
    if e = 'e' ∨ e = 'E' then
      let (sgn, rest1) : ℤ × Str :=
        match rest with
        | '+' :: r => (1, r)
        | '-' :: r => (-1, r)
        | r => (1, r)
      let (ds, rest2) := rest1.span Char.isDigit
      if ds ≠ [] ∧ rest2 = [] then some (sgn * digitsVal ds) else none
    else none

/-- The rational `sgn * m * 10 ^ e`, built with integer arithmetic only. -/
def sciVal (sgn : ℤ) (m : ℕ) (e : ℤ) : ℚ :=
  if 0 ≤ e then Rat.divInt (sgn * (m : ℤ) * 10 ^ e.toNat) 1
  else Rat.divInt (sgn * (m : ℤ)) (10 ^ (-e).toNat)

/-- Python `float(s)` on finite decimal literals: optional surrounding
whitespace, an optional sign, then either `digits`, `digits.digits?` or
`.digits`, then an optional exponent.  Returns `none` exactly when Python
raises `ValueError`.  The parsed value is represented exactly in `ℚ`; the
rounding of a literal to the nearest IEEE double is not modelled, and
non-finite literals such as `inf`/`nan`, which no claim mentions, are
rejected. -/
def pyFloat (s0 : Str) : Option ℚ :=
  let s := pyStrip s0
  let (sgn, s1) : ℤ × Str :=
    match s with
    | '+' :: r => (1, r)
    | '-' :: r => (-1, r)
    | r => (1, r)
  let (ip, s2) := s1.span Char.isDigit
  match s2 with
  | '.' :: s3 =>
    let (fp, s4) := s3.span Char.isDigit
    if ip = [] ∧ fp = [] then none
    else
      match pyFloatExp s4 with
      | some e => some (sciVal sgn (digitsVal (ip ++ fp)) (e - fp.length))
      | none => none
  | _ =>
    if ip = [] then none
    else
      match pyFloatExp s2 with
      | some e => some (sciVal sgn (digitsVal ip) e)
      | none => none

/-- A cell of a pandas DataFrame as the program uses them: a string, a number,
or Python `None`. -/
inductive Value where
  | str (s : Str)
  | num (q : ℚ)
  | null
deriving DecidableEq

/-- One pandas row: an association list from column name to cell value. -/
abbrev Row := List (Str × Value)

/-- A pandas DataFrame, as the list of its rows in order. -/
abbrev DataFrame := List Row

/-- Reading column `k` of a row (`row[k]`). -/
def rowGet (r : Row) (k : Str) : Option Value :=
  (r.find? (fun p => p.1 = k)).map (·.2)

/-- Pandas column assignment restricted to one row: overwrite the cell if the
column exists, otherwise append the new column at the end. -/
def rowSet (r : Row) (k : Str) (v : Value) : Row :=
  if r.any (fun p => p.1 = k) then
    r.map (fun p => if p.1 = k then (k, v) else p)
  else
    r ++ [(k, v)]

-- Column-name constants of the canonical record schema.
def colZone : Str := "Zone".data
def colDose : Str := "Dose (mSv)".data
def colRadionuclide : Str := "Radionuclide".data
def colRadius : Str := "Radius (km)".data
def colLatitude : Str := "Latitude".data
def colLongitude : Str := "Longitude".data
def colIncident : Str := "Incident".data
def colTimestamp : Str := "Timestamp".data
def colAction : Str := "Recommended Action".data
def colColor : Str := "Action Color".data

/-! ## Decision engine (`recommend_protective_actions`, src/app.py:125-157) -/

-- Thresholds (src/app.py:131-133).
def EVACUATE_THRESHOLD : ℚ := 10
def SHELTER_THRESHOLD : ℚ := 5
def MONITOR_THRESHOLD : ℚ := 1

/-- Function `get_action` (src/app.py:135-143): dose-to-action ladder, top-down, first
match wins, thresholds as inclusive lower bounds. -/
def get_action (dose : ℚ) : Str :=
  if dose ≥ EVACUATE_THRESHOLD then "Evacuate".data
  else if dose ≥ SHELTER_THRESHOLD then "Shelter-in-Place".data
  else if dose ≥ MONITOR_THRESHOLD then "Monitor & Advise".data
  else "No Immediate Action".data

/-- Function `get_color` (src/app.py:145-153): severity color of an action, with a
catch-all `else` returning green. -/
def get_color (action : Str) : Str :=
  if action = "Evacuate".data then "red".data
  else if action = "Shelter-in-Place".data then "orange".data
  else if action = "Monitor & Advise".data then "yellow".data
  else "green".data

/-! ## Warnings and parse results -/

/-- The `st.warning` calls the parsers can emit (src/app.py:81,83,117),
identified by the data carried in the message. -/
inductive Warning where
  | malformedTxtLine (line : Str)
  | wrongColumnCount (line : Str)
  | malformedXmlZone (tag : Str)
deriving DecidableEq

/-- Result of `parse_txt` / `parse_xml`: the returned DataFrame together with
the scalar assigned to its `Incident` / `Timestamp` columns (pandas keeps the
column even when there are zero rows, so the scalar is observable on an empty
frame) and the warnings emitted during the call. -/
structure ParseResult where
  rows : DataFrame
  incident : Value
  timestamp : Value
  warnings : List Warning
deriving DecidableEq

/-! ## TXT parser (`parse_txt`, src/app.py:51-87) -/

/-- Python `h_line.split(key)[1]`: the piece between the first and second occurrence
of the key (to the end of the line when the key occurs once). -/
def splitAfterKey (key s : Str) : Str :=
  (pySplit key s).getD 1 []

/-- Field access `parts[i]` on the split fields of a data line (indexing is guarded by the
field-count check, so the default is unreachable where this is used). -/
def fld (parts : List Str) (i : ℕ) : Str :=
  parts.getD i []

/-- One iteration of the header scan of `parse_txt` (src/app.py:59-63): an
`if`/`elif` pair per line, so a line containing `Incident:` never updates the
timestamp, and a later match overwrites an earlier one. -/
def txtHeaderStep (it : Str × Str) (h_line : Str) : Str × Str :=
  if pyContains "Incident:".data h_line then
    (pyStrip (splitAfterKey "Incident:".data h_line), it.2)
  else if pyContains "Timestamp:".data h_line then
    (it.1, pyStrip (splitAfterKey "Timestamp:".data h_line))
  else it

/-- The header scan as a whole, starting from the initial empty strings
(src/app.py:57-58). -/
def txtHeaderScan (header_lines : List Str) : Str × Str :=
  header_lines.foldl txtHeaderStep ([], [])

/-- The body of the data-line loop of `parse_txt` (src/app.py:68-83): split on
`;`; with exactly 6 fields and all four numeric fields parsing, append one
record; otherwise append one warning (the `except ValueError` branch for a
6-field line, the `else` branch for any other field count). -/
def txtStep (acc : DataFrame × List Warning) (line : Str) :
    DataFrame × List Warning :=
  let parts := pySplit ";".data line
  if parts.length = 6 then
    match pyFloat (pyStrip (fld parts 1)), pyFloat (pyStrip (fld parts 3)),
          pyFloat (pyStrip (fld parts 4)), pyFloat (pyStrip (fld parts 5)) with
    | some dose, some radius, some lat, some lon =>
      (acc.1 ++ [[(colZone, .str (pyStrip (fld parts 0))),
                  (colDose, .num dose),
                  (colRadionuclide, .str (pyStrip (fld parts 2))),
                  (colRadius, .num radius),
                  (colLatitude, .num lat),
                  (colLongitude, .num lon)]], acc.2)
    | _, _, _, _ => (acc.1, acc.2 ++ [.malformedTxtLine line])
  else
    (acc.1, acc.2 ++ [.wrongColumnCount line])

/-- The data lines of a TXT input (src/app.py:55): lines containing a
semicolon and not starting with the literal column-header prefix. -/
def txtDataLines (lines : List Str) : List Str :=
  lines.filter (fun l => pyContains ";".data l && !("Zone;".data.isPrefixOf l))

/-- Function `parse_txt` (src/app.py:51-87). -/
def parse_txt (file_content : Str) : ParseResult :=
  let lines := pySplit "\n".data (pyStrip file_content)
  let header_lines := lines.filter (fun l => pyContains ":".data l)
  let data_lines := txtDataLines lines
  let it := txtHeaderScan header_lines
  let dw := data_lines.foldl txtStep ([], [])
  { rows := dw.1.map (fun r =>
      rowSet (rowSet r colIncident (.str it.1)) colTimestamp (.str it.2)),
    incident := .str it.1,
    timestamp := .str it.2,
    warnings := dw.2 }

/-! ## CSV parser (`parse_csv`, src/app.py:90-95)

`pd.read_csv` is modelled down to what the claims need: lines split on
newlines with blank lines skipped, the first line as the header row, cells
split on commas.  Pandas dtype inference is approximated per cell (a cell
that reads as a float literal becomes a number, otherwise it stays a string);
no claim depends on a column mixing the two.  Quoting and escape syntax are
not modelled; no claim uses them.  A ragged row or an empty input is a
structural parse failure (`none`). -/

/-- One CSV cell under pandas dtype inference (numeric if it parses). -/
def csvCell (s : Str) : Value :=
  match pyFloat s with
  | some q => .num q
  | none => .str s

/-- Function `parse_csv` (src/app.py:90-95): a thin tabular decode; the only transform
applied by the program itself is stripping whitespace from the column names
(src/app.py:94). -/
def parse_csv (file_content : Str) : Option DataFrame :=
  let lines := (pySplit "\n".data file_content).filter (fun l => !l.isEmpty)
  match lines with
  | [] => none
  | header :: rest =>
    let cols := (pySplit ",".data header).map pyStrip
    if rest.all (fun r => (pySplit ",".data r).length = cols.length) then
      some (rest.map (fun r => List.zip cols ((pySplit ",".data r).map csvCell)))
    else none

/-! ## XML parser (`parse_xml`, src/app.py:98-121)

`ET.fromstring` (raising on malformed XML syntax) is the structural
parse-failure boundary owned by the caller; the parser is embedded from the
element tree down, so its input here is the parsed element tree. -/

mutual

/-- An XML element: tag, attribute list, children in document order.  (The
children are a `Forest`, a copy of `List Elem` as a mutual inductive, so that
the recursive functions below are structural and evaluate by kernel
reduction.) -/
inductive Elem where
  | mk (tag : Str) (attrs : List (Str × Str)) (children : Forest)

/-- A list of sibling XML elements in document order. -/
inductive Forest where
  | nil
  | cons (e : Elem) (f : Forest)

end

def Elem.tag : Elem → Str
  | .mk t _ _ => t

def Elem.attrs : Elem → List (Str × Str)
  | .mk _ a _ => a

def Elem.children : Elem → Forest
  | .mk _ _ c => c

/-- A forest from a list of elements. -/
def Forest.ofList : List Elem → Forest
  | [] => .nil
  | e :: es => .cons e (Forest.ofList es)

/-- The children of an element as a list. -/
def Forest.toList : Forest → List Elem
  | .nil => []
  | .cons e f => e :: Forest.toList f

/-- Python `elem.get(k)`: the attribute value, or `None` when absent. -/
def attrGet (e : Elem) (k : Str) : Option Str :=
  (e.attrs.find? (fun p => decide (p.1 = k))).map (·.2)

/-- Python `root.find(t)`: the first direct child with the given tag. -/
def findChild (e : Elem) (t : Str) : Option Elem :=
  e.children.toList.find? (fun c => decide (c.tag = t))

mutual

/-- All proper descendants of an element in document (preorder) order, as
enumerated by `root.findall(".//tag")` before the tag filter. -/
def descendants : Elem → List Elem
  | .mk _ _ children => descForest children

/-- Preorder enumeration of a forest: each root followed by its descendants. -/
def descForest : Forest → List Elem
  | .nil => []
  | .cons c cs => c :: (descendants c ++ descForest cs)

end

/-- Python `root.findall(".//Zone")` (src/app.py:106). -/
def findallZones (root : Elem) : List Elem :=
  (descendants root).filter (fun e => decide (e.tag = "Zone".data))

/-- An optional attribute as a cell value (`None` when absent). -/
def optAttr (o : Option Str) : Value :=
  match o with
  | some s => .str s
  | none => .null

/-- The body of the zone loop of `parse_xml` (src/app.py:106-117): the record
literal coerces the four numeric attributes with `float`; a missing numeric
attribute (`float(None)` raising `TypeError`) or a non-numeric value
(`ValueError`) lands in the `except` branch, emitting one warning and no
record.  A missing `name` or `radionuclide` attribute raises nothing:
`elem.get` just yields `None`, stored in the record. -/
def xmlZoneStep (acc : DataFrame × List Warning) (zone_elem : Elem) :
    DataFrame × List Warning :=
  match (attrGet zone_elem "dose_mSv".data).bind pyFloat,
        (attrGet zone_elem "radius_km".data).bind pyFloat,
        (attrGet zone_elem "latitude".data).bind pyFloat,
        (attrGet zone_elem "longitude".data).bind pyFloat with
  | some dose, some radius, some lat, some lon =>
    (acc.1 ++ [[(colZone, optAttr (attrGet zone_elem "name".data)),
                (colDose, .num dose),
                (colRadionuclide, optAttr (attrGet zone_elem "radionuclide".data)),
                (colRadius, .num radius),
                (colLatitude, .num lat),
                (colLongitude, .num lon)]], acc.2)
  | _, _, _, _ => (acc.1, acc.2 ++ [.malformedXmlZone zone_elem.tag])

/-- Function `parse_xml` (src/app.py:98-121), from the element tree down. -/
def parse_xml (root : Elem) : ParseResult :=
  let incident_elem := findChild root "Incident".data
  let incident_name : Value :=
    match incident_elem with
    | some e => optAttr (attrGet e "name".data)
    | none => .str "N/A".data
  let timestamp : Value :=
    match incident_elem with
    | some e => optAttr (attrGet e "timestamp".data)
    | none => .str "N/A".data
  let dw := (findallZones root).foldl xmlZoneStep ([], [])
  { rows := dw.1.map (fun r =>
      rowSet (rowSet r colIncident incident_name) colTimestamp timestamp),
    incident := incident_name,
    timestamp := timestamp,
    warnings := dw.2 }

/-! ## Decision engine body (`recommend_protective_actions`, src/app.py:125-157) -/

/-- Reading a row's dose as `get_action` will receive it
(`df["Dose (mSv)"].apply(get_action)`, src/app.py:155): a missing column
raises `KeyError`, a non-numeric cell makes the `>=` comparisons inside
`get_action` raise `TypeError`; either way the call raises, hence `none`. -/
def doseOf (r : Row) : Option ℚ :=
  match rowGet r colDose with
  | some (.num q) => some q
  | _ => none

/-- The two cells the engine writes into a row, from that row's dose (only
meaningful when `doseOf` succeeds; the `getD` default is unreachable under
the `all` guard below). -/
def enrichRow (r : Row) : Row :=
  let a := get_action ((doseOf r).getD 0)
  rowSet (rowSet r colAction (.str a)) colColor (.str (get_color a))

/-- Function `recommend_protective_actions` (src/app.py:125-157): return the empty
frame untouched; otherwise `apply` raises as soon as any row's dose is not a
number (propagating before either column assignment), and otherwise the
action column is computed from the dose column and the color column from the
freshly assigned action column.  The two column assignments are composed
row-wise: assigning the action column and then mapping `get_color` over it
equals setting both cells from the dose, also when columns of these names
already existed (they are overwritten either way). -/
def recommend_protective_actions (df : DataFrame) : Option DataFrame :=
  if df = [] then some df
  else if df.all (fun r => (doseOf r).isSome) then
    some (df.map enrichRow)
  else none

/-- Pandas column assignment (src/app.py:155-156) mutates the frame object the
function received and returns that same object, so after the call the
caller's variable aliases the returned frame.  When the dose-column access or
the `apply` raises, the exception propagates before any assignment happened
and the caller's frame is unchanged.  `frameAfterCall df` is therefore the
state of the record set the caller passed in, observed after
`recommend_protective_actions(df)` returns or raises. -/
def frameAfterCall (df : DataFrame) : DataFrame :=
  (recommend_protective_actions df).getD df

/-! ## Validity predicates

These restate, in the claims' words, which TXT data line / XML zone element
is well formed; the theorems below relate them to what the parsers embedded
above actually do. -/

/-- A TXT data line the spec calls well formed: splitting on the semicolon
yields exactly 6 fields and the four numeric fields parse as numbers. -/
def txtLineValid (line : Str) : Bool :=
  let parts := pySplit ";".data line
  decide (parts.length = 6) &&
    (pyFloat (pyStrip (fld parts 1))).isSome &&
    (pyFloat (pyStrip (fld parts 3))).isSome &&
    (pyFloat (pyStrip (fld parts 4))).isSome &&
    (pyFloat (pyStrip (fld parts 5))).isSome

/-- The record a well-formed TXT data line contributes (the `getD` defaults
are unreachable when `txtLineValid` holds). -/
def txtRecordOf (line : Str) : Row :=
  let parts := pySplit ";".data line
  [(colZone, .str (pyStrip (fld parts 0))),
   (colDose, .num ((pyFloat (pyStrip (fld parts 1))).getD 0)),
   (colRadionuclide, .str (pyStrip (fld parts 2))),
   (colRadius, .num ((pyFloat (pyStrip (fld parts 3))).getD 0)),
   (colLatitude, .num ((pyFloat (pyStrip (fld parts 4))).getD 0)),
   (colLongitude, .num ((pyFloat (pyStrip (fld parts 5))).getD 0))]

/-- The warning a malformed TXT data line triggers: the `except ValueError`
message for a 6-field line, the column-count message otherwise. -/
def txtWarnOf (line : Str) : Warning :=
  if (pySplit ";".data line).length = 6 then .malformedTxtLine line
  else .wrongColumnCount line

/-- A `Zone` element whose four numeric attributes are present and coerce:
exactly the condition under which the record literal in the zone loop does
not raise. -/
def zoneValid (z : Elem) : Bool :=
  ((attrGet z "dose_mSv".data).bind pyFloat).isSome &&
    ((attrGet z "radius_km".data).bind pyFloat).isSome &&
    ((attrGet z "latitude".data).bind pyFloat).isSome &&
    ((attrGet z "longitude".data).bind pyFloat).isSome

/-- The record a valid `Zone` element contributes (the `getD` defaults are
unreachable when `zoneValid` holds). -/
def zoneRecordOf (z : Elem) : Row :=
  [(colZone, optAttr (attrGet z "name".data)),
   (colDose, .num (((attrGet z "dose_mSv".data).bind pyFloat).getD 0)),
   (colRadionuclide, optAttr (attrGet z "radionuclide".data)),
   (colRadius, .num (((attrGet z "radius_km".data).bind pyFloat).getD 0)),
   (colLatitude, .num (((attrGet z "latitude".data).bind pyFloat).getD 0)),
   (colLongitude, .num (((attrGet z "longitude".data).bind pyFloat).getD 0))]

/-! ## Concrete inputs used by the witnesses and counterexamples -/

/-- End-to-end scenario 1 of the spec: the four-line TXT input. -/
def e2eTxt : Str :=
  "Incident: Test1\nTimestamp: 2024-01-01 00:00:00\nZone;Dose (mSv);Radionuclide;Radius (km);Latitude;Longitude\nZone A;12.5;I-131;5.0;-33.586;18.402".data

/-- A one-record canonical frame with a numeric dose. -/
def c2df : DataFrame :=
  [[(colZone, .str "Zone A".data), (colDose, .num 3)]]

/-- A one-record canonical frame with a numeric dose of 12.5 mSv. -/
def c3df : DataFrame :=
  [[(colZone, .str "Zone A".data), (colDose, .num (Rat.divInt 25 2))]]

/-- An XML tree whose single `Zone` element carries every attribute except
`name`. -/
def c5root : Elem :=
  .mk "RascalData".data []
    (.ofList
      [.mk "Incident".data
          [("name".data, "T".data), ("timestamp".data, "t0".data)] (.ofList []),
       .mk "Zone".data
          [("dose_mSv".data, "3.0".data), ("radionuclide".data, "I-131".data),
           ("radius_km".data, "5.0".data), ("latitude".data, "-33.6".data),
           ("longitude".data, "18.4".data)] (.ofList [])])

/-- A rectangular CSV input whose two rows carry different `Incident` and
`Timestamp` values. -/
def c7csv : Str :=
  "Zone,Dose (mSv),Radionuclide,Radius (km),Latitude,Longitude,Incident,Timestamp\nZone A,3.0,I-131,5.0,-33.6,18.4,IncA,t1\nZone B,4.0,I-131,5.0,-33.6,18.4,IncB,t2".data

/-- A TXT input none of whose lines contains a header key. -/
def c6txt : Str := "hello\nworld".data

/-- An XML tree with no `Incident` child under the root. -/
def c6root : Elem :=
  .mk "RascalData".data []
    (.ofList
      [.mk "Zone".data
          [("name".data, "Zone A".data), ("dose_mSv".data, "3.0".data),
           ("radionuclide".data, "I-131".data), ("radius_km".data, "5.0".data),
           ("latitude".data, "-33.6".data), ("longitude".data, "18.4".data)]
          (.ofList [])])

/-- A header line containing both keys (only its `Incident:` part is used). -/
def c10both : Str := "Incident: New Timestamp: 2024".data

/-- Header lines before and after `c10both` for the last-match-wins part. -/
def c10before : List Str := ["Incident: Old".data]

/-- Trailing header lines containing no `Incident:` key. -/
def c10after : List Str := ["Timestamp: 2025".data]

/-! ## Helper lemmas -/

theorem rowSet_eq_append (r : Row) (k : Str) (v : Value)
    (h : ∀ p ∈ r, p.1 ≠ k) : rowSet r k v = r ++ [(k, v)] := by
  have hany : r.any (fun p => decide (p.1 = k)) = false :=
    List.any_eq_false.mpr (fun p hp => by simp [h p hp])
  simp [rowSet, hany]

theorem rowGet_append_single_same (r : Row) (k : Str) (v : Value)
    (h : ∀ p ∈ r, p.1 ≠ k) : rowGet (r ++ [(k, v)]) k = some v := by
  rw [rowGet, List.find?_append]
  have hnone : r.find? (fun p => decide (p.1 = k)) = none :=
    List.find?_eq_none.mpr (fun p hp => by simp [h p hp])
  simp [hnone]

theorem rowGet_append_single_other (r : Row) (k k2 : Str) (v : Value)
    (hk : k2 ≠ k) : rowGet (r ++ [(k, v)]) k2 = rowGet r k2 := by
  rw [rowGet, rowGet, List.find?_append]
  have hkv : (k, v).1 ≠ k2 := fun hc => hk hc.symm
  have hone : List.find? (fun p => decide (p.1 = k2)) [(k, v)] = none := by
    simp [hkv]
  cases hr : r.find? (fun p => decide (p.1 = k2)) <;> simp [hone, hr]

theorem headerFold_fst_const (ls : List Str) (it : Str × Str)
    (h : ∀ l ∈ ls, pyContains "Incident:".data l = false) :
    (ls.foldl txtHeaderStep it).1 = it.1 := by
  induction ls generalizing it with
  | nil => rfl
  | cons l ls ih =>
    have hl := h l (List.mem_cons_self l ls)
    have hrest : ∀ m ∈ ls, pyContains "Incident:".data m = false :=
      fun m hm => h m (List.mem_cons_of_mem l hm)
    rw [List.foldl_cons, ih _ hrest]
    rw [txtHeaderStep, hl]
    by_cases ht : pyContains "Timestamp:".data l = true
    · simp [ht]
    · simp [ht]

theorem headerFold_snd_const (ls : List Str) (it : Str × Str)
    (h : ∀ l ∈ ls, pyContains "Timestamp:".data l = false) :
    (ls.foldl txtHeaderStep it).2 = it.2 := by
  induction ls generalizing it with
  | nil => rfl
  | cons l ls ih =>
    have hl := h l (List.mem_cons_self l ls)
    have hrest : ∀ m ∈ ls, pyContains "Timestamp:".data m = false :=
      fun m hm => h m (List.mem_cons_of_mem l hm)
    rw [List.foldl_cons, ih _ hrest]
    rw [txtHeaderStep, hl]
    by_cases hi : pyContains "Incident:".data l = true
    · simp [hi]
    · simp [hi]

theorem txtFold_spec (ls : List Str) (d : DataFrame) (w : List Warning) :
    ls.foldl txtStep (d, w) =
      (d ++ (ls.filter txtLineValid).map txtRecordOf,
       w ++ (ls.filter (fun l => !txtLineValid l)).map txtWarnOf) := by
  induction ls generalizing d w with
  | nil => simp
  | cons l ls ih =>
    rw [List.foldl_cons]
    by_cases h6 : (pySplit ";".data l).length = 6
    · cases h1 : pyFloat (pyStrip (fld (pySplit ";".data l) 1)) with
      | none =>
        have hstep : txtStep (d, w) l = (d, w ++ [Warning.malformedTxtLine l]) := by
          simp only [txtStep, h6, h1, if_true, eq_self_iff_true]
        have hvalid : txtLineValid l = false := by
          simp [txtLineValid, h1]
        have hwarn : txtWarnOf l = .malformedTxtLine l := by simp [txtWarnOf, h6]
        rw [hstep, ih, List.filter_cons, List.filter_cons, hvalid]
        simp [hwarn]
      | some q1 =>
        cases h2 : pyFloat (pyStrip (fld (pySplit ";".data l) 3)) with
        | none =>
          have hstep : txtStep (d, w) l = (d, w ++ [Warning.malformedTxtLine l]) := by
            simp only [txtStep, h6, h1, h2, if_true, eq_self_iff_true]
          have hvalid : txtLineValid l = false := by simp [txtLineValid, h2]
          have hwarn : txtWarnOf l = .malformedTxtLine l := by simp [txtWarnOf, h6]
          rw [hstep, ih, List.filter_cons, List.filter_cons, hvalid]
          simp [hwarn]
        | some q2 =>
          cases h3 : pyFloat (pyStrip (fld (pySplit ";".data l) 4)) with
          | none =>
            have hstep : txtStep (d, w) l = (d, w ++ [Warning.malformedTxtLine l]) := by
              simp only [txtStep, h6, h1, h2, h3, if_true, eq_self_iff_true]
            have hvalid : txtLineValid l = false := by simp [txtLineValid, h3]
            have hwarn : txtWarnOf l = .malformedTxtLine l := by simp [txtWarnOf, h6]
            rw [hstep, ih, List.filter_cons, List.filter_cons, hvalid]
            simp [hwarn]
          | some q3 =>
            cases h4 : pyFloat (pyStrip (fld (pySplit ";".data l) 5)) with
            | none =>
              have hstep : txtStep (d, w) l = (d, w ++ [Warning.malformedTxtLine l]) := by
                simp only [txtStep, h6, h1, h2, h3, h4, if_true, eq_self_iff_true]
              have hvalid : txtLineValid l = false := by simp [txtLineValid, h4]
              have hwarn : txtWarnOf l = .malformedTxtLine l := by simp [txtWarnOf, h6]
              rw [hstep, ih, List.filter_cons, List.filter_cons, hvalid]
              simp [hwarn]
            | some q4 =>
              have hstep : txtStep (d, w) l = (d ++ [txtRecordOf l], w) := by
                simp only [txtStep, txtRecordOf, h6, h1, h2, h3, h4, if_true,
                  eq_self_iff_true, Option.getD_some]
              have hvalid : txtLineValid l = true := by
                simp [txtLineValid, h6, h1, h2, h3, h4]
              rw [hstep, ih, List.filter_cons, List.filter_cons, hvalid]
              simp
    · have hstep : txtStep (d, w) l = (d, w ++ [Warning.wrongColumnCount l]) := by
        simp only [txtStep, h6, if_false]
      have hvalid : txtLineValid l = false := by simp [txtLineValid, h6]
      have hwarn : txtWarnOf l = .wrongColumnCount l := by simp [txtWarnOf, h6]
      rw [hstep, ih, List.filter_cons, List.filter_cons, hvalid]
      simp [hwarn]

theorem xmlFold_spec (zs : List Elem) (d : DataFrame) (w : List Warning) :
    zs.foldl xmlZoneStep (d, w) =
      (d ++ (zs.filter zoneValid).map zoneRecordOf,
       w ++ (zs.filter (fun z => !zoneValid z)).map
              (fun z => Warning.malformedXmlZone z.tag)) := by
  induction zs generalizing d w with
  | nil => simp
  | cons z zs ih =>
    rw [List.foldl_cons]
    cases h1 : (attrGet z "dose_mSv".data).bind pyFloat with
    | none =>
      have hstep : xmlZoneStep (d, w) z = (d, w ++ [Warning.malformedXmlZone z.tag]) := by
        simp only [xmlZoneStep, h1]
      have hvalid : zoneValid z = false := by simp [zoneValid, h1]
      rw [hstep, ih, List.filter_cons, List.filter_cons, hvalid]
      simp
    | some q1 =>
      cases h2 : (attrGet z "radius_km".data).bind pyFloat with
      | none =>
        have hstep : xmlZoneStep (d, w) z = (d, w ++ [Warning.malformedXmlZone z.tag]) := by
          simp only [xmlZoneStep, h1, h2]
        have hvalid : zoneValid z = false := by simp [zoneValid, h2]
        rw [hstep, ih, List.filter_cons, List.filter_cons, hvalid]
        simp
      | some q2 =>
        cases h3 : (attrGet z "latitude".data).bind pyFloat with
        | none =>
          have hstep : xmlZoneStep (d, w) z = (d, w ++ [Warning.malformedXmlZone z.tag]) := by
            simp only [xmlZoneStep, h1, h2, h3]
          have hvalid : zoneValid z = false := by simp [zoneValid, h3]
          rw [hstep, ih, List.filter_cons, List.filter_cons, hvalid]
          simp
        | some q3 =>
          cases h4 : (attrGet z "longitude".data).bind pyFloat with
          | none =>
            have hstep : xmlZoneStep (d, w) z = (d, w ++ [Warning.malformedXmlZone z.tag]) := by
              simp only [xmlZoneStep, h1, h2, h3, h4]
            have hvalid : zoneValid z = false := by simp [zoneValid, h4]
            rw [hstep, ih, List.filter_cons, List.filter_cons, hvalid]
            simp
          | some q4 =>
            have hstep : xmlZoneStep (d, w) z = (d ++ [zoneRecordOf z], w) := by
              simp only [xmlZoneStep, zoneRecordOf, h1, h2, h3, h4, Option.getD_some]
            have hvalid : zoneValid z = true := by simp [zoneValid, h1, h2, h3, h4]
            rw [hstep, ih, List.filter_cons, List.filter_cons, hvalid]
            simp

theorem txtRecordOf_keys (l : Str) (p : Str × Value) (hp : p ∈ txtRecordOf l) :
    p.1 = colZone ∨ p.1 = colDose ∨ p.1 = colRadionuclide ∨
      p.1 = colRadius ∨ p.1 = colLatitude ∨ p.1 = colLongitude := by
  simp only [txtRecordOf, List.mem_cons, List.not_mem_nil, or_false] at hp
  rcases hp with h | h | h | h | h | h <;> simp [h]

theorem zoneRecordOf_keys (z : Elem) (p : Str × Value) (hp : p ∈ zoneRecordOf z) :
    p.1 = colZone ∨ p.1 = colDose ∨ p.1 = colRadionuclide ∨
      p.1 = colRadius ∨ p.1 = colLatitude ∨ p.1 = colLongitude := by
  simp only [zoneRecordOf, List.mem_cons, List.not_mem_nil, or_false] at hp
  rcases hp with h | h | h | h | h | h <;> simp [h]

theorem rows_share_scalar {α : Type} (xs : List α) (f : α → Row) (vi vt : Value)
    (hkeys : ∀ x ∈ xs, ∀ p ∈ f x, p.1 ≠ colIncident ∧ p.1 ≠ colTimestamp) :
    ∀ r2 ∈ xs.map (fun x => rowSet (rowSet (f x) colIncident vi) colTimestamp vt),
      rowGet r2 colIncident = some vi ∧ rowGet r2 colTimestamp = some vt := by
  intro r2 h2
  rcases List.mem_map.mp h2 with ⟨x, hx, rfl⟩
  set r := f x with hrdef
  have hkI : ∀ p ∈ r, p.1 ≠ colIncident := fun p hp => (hkeys x hx p hp).1
  have hkT : ∀ p ∈ r, p.1 ≠ colTimestamp := fun p hp => (hkeys x hx p hp).2
  have e1 : rowSet r colIncident vi = r ++ [(colIncident, vi)] :=
    rowSet_eq_append r colIncident vi hkI
  have hkT2 : ∀ p ∈ r ++ [(colIncident, vi)], p.1 ≠ colTimestamp := by
    intro p hp
    rcases List.mem_append.mp hp with hp | hp
    · exact hkT p hp
    · rcases List.mem_singleton.mp hp with rfl
      show colIncident ≠ colTimestamp
      decide
  have e2 : rowSet (r ++ [(colIncident, vi)]) colTimestamp vt
      = r ++ [(colIncident, vi)] ++ [(colTimestamp, vt)] :=
    rowSet_eq_append _ colTimestamp vt hkT2
  rw [e1, e2]
  constructor
  · rw [rowGet_append_single_other _ colTimestamp colIncident vt (by decide)]
    exact rowGet_append_single_same r colIncident vi hkI
  · exact rowGet_append_single_same _ colTimestamp vt hkT2

set_option maxRecDepth 100000

/-! ## Claims -/

/-- C1: for every numeric dose `d`, `get_action` returns exactly one of the
four action strings, by a top-down first-match ladder with inclusive lower
bounds (`d = 5` falls in the Shelter-in-Place bucket), and `get_color` maps
the four actions 1:1 to red, orange, yellow, green. -/
theorem C1_action_ladder_and_colors (d : ℚ) :
    (get_action d = "Evacuate".data ∨ get_action d = "Shelter-in-Place".data ∨
      get_action d = "Monitor & Advise".data ∨
      get_action d = "No Immediate Action".data) ∧
    (10 ≤ d → get_action d = "Evacuate".data) ∧
    (5 ≤ d → d < 10 → get_action d = "Shelter-in-Place".data) ∧
    (1 ≤ d → d < 5 → get_action d = "Monitor & Advise".data) ∧
    (d < 1 → get_action d = "No Immediate Action".data) ∧
    get_color "Evacuate".data = "red".data ∧
    get_color "Shelter-in-Place".data = "orange".data ∧
    get_color "Monitor & Advise".data = "yellow".data ∧
    get_color "No Immediate Action".data = "green".data ∧
    ("red".data ≠ "orange".data ∧ "red".data ≠ "yellow".data ∧
      "red".data ≠ "green".data ∧ "orange".data ≠ "yellow".data ∧
      "orange".data ≠ "green".data ∧ "yellow".data ≠ "green".data) := by
  refine ⟨?_, ?_, ?_, ?_, ?_, by decide, by decide, by decide, by decide, by decide⟩
  · unfold get_action EVACUATE_THRESHOLD SHELTER_THRESHOLD MONITOR_THRESHOLD
    split_ifs <;> simp
  · intro h
    unfold get_action EVACUATE_THRESHOLD
    rw [if_pos h]
  · intro h5 h10
    unfold get_action EVACUATE_THRESHOLD SHELTER_THRESHOLD
    rw [if_neg (by linarith : ¬d ≥ 10), if_pos h5]
  · intro h1 h5
    unfold get_action EVACUATE_THRESHOLD SHELTER_THRESHOLD MONITOR_THRESHOLD
    rw [if_neg (by linarith : ¬d ≥ 10), if_neg (by linarith : ¬d ≥ 5), if_pos h1]
  · intro h1
    unfold get_action EVACUATE_THRESHOLD SHELTER_THRESHOLD MONITOR_THRESHOLD
    rw [if_neg (by linarith : ¬d ≥ 10), if_neg (by linarith : ¬d ≥ 5),
      if_neg (by linarith : ¬d ≥ 1)]

/-- Witness for C1 at the boundary dose 5 and at 12. -/
theorem C1_witness :
    get_action 5 = "Shelter-in-Place".data ∧ get_action 12 = "Evacuate".data :=
  ⟨(C1_action_ladder_and_colors 5).2.2.1 (by norm_num) (by norm_num),
   (C1_action_ladder_and_colors 12).2.1 (by norm_num)⟩

/-- C9: `get_color` is total over arbitrary action strings; every string
other than the three named actions lands in the catch-all `else` and gets
"green". -/
theorem C9_color_catch_all (s : Str)
    (h1 : s ≠ "Evacuate".data) (h2 : s ≠ "Shelter-in-Place".data)
    (h3 : s ≠ "Monitor & Advise".data) :
    get_color s = "green".data := by
  unfold get_color
  rw [if_neg h1, if_neg h2, if_neg h3]

/-- Witness for C9 at a string that is not even an action value. -/
theorem C9_witness : get_color "Unknown".data = "green".data :=
  C9_color_catch_all "Unknown".data (by decide) (by decide) (by decide)

/-- C2: on a record set whose every record carries a numeric dose, the
decision engine never raises, returns exactly as many records as it was
given, and returns the empty record set unchanged. -/
theorem C2_engine_total_same_count (df : DataFrame)
    (h : ∀ r ∈ df, ∃ q, rowGet r colDose = some (.num q)) :
    ∃ out, recommend_protective_actions df = some out ∧
      out.length = df.length ∧ (df = [] → out = df) := by
  rcases eq_or_ne df [] with rfl | hne
  · exact ⟨[], by simp [recommend_protective_actions], rfl, fun _ => rfl⟩
  · have hall : df.all (fun r => (doseOf r).isSome) = true := by
      rw [List.all_eq_true]
      intro r hr
      rcases h r hr with ⟨q, hq⟩
      simp [doseOf, hq]
    exact ⟨df.map enrichRow,
      by simp [recommend_protective_actions, hne, hall],
      by simp, fun hc => absurd hc hne⟩

/-- Witness for C2 on a one-record frame with dose 3. -/
theorem C2_witness :
    ∃ out, recommend_protective_actions c2df = some out ∧
      out.length = c2df.length ∧ (c2df = [] → out = c2df) :=
  C2_engine_total_same_count c2df (by
    intro r hr
    rw [c2df, List.mem_singleton] at hr
    subst hr
    exact ⟨3, by decide⟩)

/-- C3 as stated is false: the engine mutates the frame it was handed (pandas
column assignment), so after the call the caller's one-record frame is not
the record set that was passed in. -/
theorem C3_counterexample : frameAfterCall c3df ≠ c3df := by decide

/-- C3 amended: the engine does not copy; it appends the two derived cells to
every record of the frame it was given and returns that same frame, so after
the call the caller's variable holds the augmented frame, which for a
nonempty input differs from the one passed in.  (The callers in the app pass
`df.copy()`, so the session-stored frame is preserved by the callers, not by
the engine.) -/
theorem C3_engine_mutates_in_place (df : DataFrame)
    (hd : ∀ r ∈ df, ∃ q, rowGet r colDose = some (.num q))
    (hfresh : ∀ r ∈ df, ∀ p ∈ r, p.1 ≠ colAction ∧ p.1 ≠ colColor) :
    ∃ out, recommend_protective_actions df = some out ∧
      frameAfterCall df = out ∧
      out = df.map (fun r =>
        r ++ [(colAction, .str (get_action ((doseOf r).getD 0))),
              (colColor, .str (get_color (get_action ((doseOf r).getD 0))))]) ∧
      (df ≠ [] → frameAfterCall df ≠ df) := by
  have henrich : ∀ r ∈ df, enrichRow r =
      r ++ [(colAction, .str (get_action ((doseOf r).getD 0))),
            (colColor, .str (get_color (get_action ((doseOf r).getD 0))))] := by
    intro r hr
    have hkA : ∀ p ∈ r, p.1 ≠ colAction := fun p hp => (hfresh r hr p hp).1
    have hkC : ∀ p ∈ r, p.1 ≠ colColor := fun p hp => (hfresh r hr p hp).2
    rw [enrichRow]
    rw [rowSet_eq_append r colAction _ hkA]
    rw [rowSet_eq_append _ colColor _ (by
      intro p hp
      rcases List.mem_append.mp hp with hp | hp
      · exact hkC p hp
      · rcases List.mem_singleton.mp hp with rfl
        show colAction ≠ colColor
        decide)]
    rw [List.append_assoc]
    rfl
  rcases eq_or_ne df [] with rfl | hne
  · exact ⟨[], by simp [recommend_protective_actions], by simp [frameAfterCall, recommend_protective_actions],
      by simp, fun hc => absurd rfl hc⟩
  · have hall : df.all (fun r => (doseOf r).isSome) = true := by
      rw [List.all_eq_true]
      intro r hr
      rcases hd r hr with ⟨q, hq⟩
      simp [doseOf, hq]
    have hrec : recommend_protective_actions df = some (df.map enrichRow) := by
      simp [recommend_protective_actions, hne, hall]
    have hmap : df.map enrichRow = df.map (fun r =>
        r ++ [(colAction, .str (get_action ((doseOf r).getD 0))),
              (colColor, .str (get_color (get_action ((doseOf r).getD 0))))]) :=
      List.map_congr_left henrich
    refine ⟨df.map enrichRow, hrec, by rw [frameAfterCall, hrec]; rfl, hmap, ?_⟩
    intro _ hcontra
    rw [frameAfterCall, hrec] at hcontra
    simp only [Option.getD_some] at hcontra
    rcases df with _ | ⟨r0, rs⟩
    · exact hne rfl
    · have hhead : enrichRow r0 = r0 := congrArg (fun l => l.headD []) hcontra
      have := congrArg List.length (henrich r0 (List.mem_cons_self r0 rs) ▸ hhead)
      simp at this

/-- Witness for C3's amended statement on the one-record frame `c3df`. -/
theorem C3_witness :
    ∃ out, recommend_protective_actions c3df = some out ∧
      frameAfterCall c3df = out ∧
      out = c3df.map (fun r =>
        r ++ [(colAction, .str (get_action ((doseOf r).getD 0))),
              (colColor, .str (get_color (get_action ((doseOf r).getD 0))))]) ∧
      (c3df ≠ [] → frameAfterCall c3df ≠ c3df) :=
  C3_engine_mutates_in_place c3df
    (by
      intro r hr
      rw [c3df, List.mem_singleton] at hr
      subst hr
      exact ⟨Rat.divInt 25 2, by decide⟩)
    (by
      intro r hr
      rw [c3df, List.mem_singleton] at hr
      subst hr
      decide)

theorem sixcols_ne (k : Str)
    (h : k = colZone ∨ k = colDose ∨ k = colRadionuclide ∨
      k = colRadius ∨ k = colLatitude ∨ k = colLongitude) :
    k ≠ colIncident ∧ k ≠ colTimestamp := by
  rcases h with h | h | h | h | h | h <;> subst h <;> exact ⟨by decide, by decide⟩

/-- C4: a TXT data line splitting into exactly 6 fields whose four numeric
fields parse contributes exactly one record; any other data line contributes
no record and exactly one warning. -/
theorem C4_txt_line_contract (content : Str) :
    (parse_txt content).rows.length
      = ((txtDataLines (pySplit "\n".data (pyStrip content))).filter
          txtLineValid).length ∧
    (parse_txt content).warnings
      = ((txtDataLines (pySplit "\n".data (pyStrip content))).filter
          (fun l => !txtLineValid l)).map txtWarnOf := by
  have h := txtFold_spec (txtDataLines (pySplit "\n".data (pyStrip content))) [] []
  constructor
  · simp only [parse_txt]
    rw [h]
    simp
  · simp only [parse_txt]
    rw [h]
    simp

/-- C5 as stated is false: a `Zone` element carrying every attribute except
`name` is not skipped and triggers no warning; it contributes a record whose
Zone cell is Python `None`. -/
theorem C5_counterexample :
    (parse_xml c5root).rows.length = 1 ∧
    (parse_xml c5root).warnings = [] ∧
    rowGet ((parse_xml c5root).rows.getD 0 []) colZone = some .null := by
  decide

/-- C5 amended: the skip-with-warning behavior is tied to the four numeric
attributes only — a `Zone` element is dropped with exactly one warning iff
one of `dose_mSv`, `radius_km`, `latitude`, `longitude` is missing or fails
numeric coercion, and the remaining elements are still processed; a missing
`name` or `radionuclide` yields a record with a `None` cell instead. -/
theorem C5_zone_skip_on_numeric_failure (root : Elem) :
    (parse_xml root).rows.length = ((findallZones root).filter zoneValid).length ∧
    (parse_xml root).warnings
      = ((findallZones root).filter (fun z => !zoneValid z)).map
          (fun z => Warning.malformedXmlZone z.tag) := by
  have h := xmlFold_spec (findallZones root) [] []
  constructor
  · simp only [parse_xml]
    rw [h]
    simp
  · simp only [parse_xml]
    rw [h]
    simp

/-- C6: with no line containing `Incident:` the TXT parser defaults Incident
to the empty string (likewise Timestamp); with no `Incident` child under the
root the XML parser defaults both to the literal "N/A"; the two defaults are
distinct. -/
theorem C6_missing_header_defaults (content : Str) (root : Elem) :
    ((∀ l ∈ pySplit "\n".data (pyStrip content),
        pyContains "Incident:".data l = false) →
      (parse_txt content).incident = .str "".data) ∧
    ((∀ l ∈ pySplit "\n".data (pyStrip content),
        pyContains "Timestamp:".data l = false) →
      (parse_txt content).timestamp = .str "".data) ∧
    ((∀ c ∈ root.children.toList, c.tag ≠ "Incident".data) →
      (parse_xml root).incident = .str "N/A".data ∧
      (parse_xml root).timestamp = .str "N/A".data) ∧
    Value.str "".data ≠ Value.str "N/A".data := by
  refine ⟨?_, ?_, ?_, by decide⟩
  · intro h
    simp only [parse_txt]
    congr 1
    rw [txtHeaderScan]
    exact headerFold_fst_const _ _ (fun l hl => h l (List.mem_filter.mp hl).1)
  · intro h
    simp only [parse_txt]
    congr 1
    rw [txtHeaderScan]
    exact headerFold_snd_const _ _ (fun l hl => h l (List.mem_filter.mp hl).1)
  · intro h
    have hfind : findChild root "Incident".data = none := by
      rw [findChild, List.find?_eq_none]
      intro c hc
      simp [h c hc]
    constructor <;> simp [parse_xml, hfind]

/-- Witness for C6 on a keyless TXT input and an XML tree without an
`Incident` element. -/
theorem C6_witness :
    (parse_txt c6txt).incident = .str "".data ∧
    (parse_txt c6txt).timestamp = .str "".data ∧
    (parse_xml c6root).incident = .str "N/A".data ∧
    (parse_xml c6root).timestamp = .str "N/A".data :=
  ⟨(C6_missing_header_defaults c6txt c6root).1 (by decide),
   (C6_missing_header_defaults c6txt c6root).2.1 (by decide),
   ((C6_missing_header_defaults c6txt c6root).2.2.1 (by decide)).1,
   ((C6_missing_header_defaults c6txt c6root).2.2.1 (by decide)).2⟩

/-- C7 as stated is false for the CSV parser: a rectangular CSV input parsed
without structural failure can carry a different Incident (and Timestamp)
value on each record. -/
theorem C7_counterexample :
    (parse_csv c7csv).isSome = true ∧
    ((parse_csv c7csv).getD []).length = 2 ∧
    rowGet (((parse_csv c7csv).getD []).getD 0 []) colIncident
      = some (.str "IncA".data) ∧
    rowGet (((parse_csv c7csv).getD []).getD 1 []) colIncident
      = some (.str "IncB".data) ∧
    Value.str "IncA".data ≠ Value.str "IncB".data := by
  decide

/-- C7 amended: the shared-Incident/Timestamp invariant holds for the TXT and
XML parsers (whose records also appear in input order, one per surviving
line / zone element); the CSV parser preserves order but passes through the
per-row values, which need not be shared. -/
theorem C7_txt_xml_share_incident_timestamp (content : Str) (root : Elem) :
    (∀ r ∈ (parse_txt content).rows,
        rowGet r colIncident = some (parse_txt content).incident ∧
        rowGet r colTimestamp = some (parse_txt content).timestamp) ∧
    (∀ r ∈ (parse_xml root).rows,
        rowGet r colIncident = some (parse_xml root).incident ∧
        rowGet r colTimestamp = some (parse_xml root).timestamp) ∧
    (parse_txt content).rows
      = ((txtDataLines (pySplit "\n".data (pyStrip content))).filter
            txtLineValid).map
          (fun l => rowSet (rowSet (txtRecordOf l) colIncident
              (parse_txt content).incident) colTimestamp
              (parse_txt content).timestamp) ∧
    (parse_xml root).rows
      = ((findallZones root).filter zoneValid).map
          (fun z => rowSet (rowSet (zoneRecordOf z) colIncident
              (parse_xml root).incident) colTimestamp
              (parse_xml root).timestamp) := by
  have htxt := txtFold_spec (txtDataLines (pySplit "\n".data (pyStrip content))) [] []
  have hxml := xmlFold_spec (findallZones root) [] []
  have htxtrows : (parse_txt content).rows
      = ((txtDataLines (pySplit "\n".data (pyStrip content))).filter
            txtLineValid).map
          (fun l => rowSet (rowSet (txtRecordOf l) colIncident
              (parse_txt content).incident) colTimestamp
              (parse_txt content).timestamp) := by
    simp only [parse_txt]
    rw [htxt]
    simp [List.map_map]
  have hxmlrows : (parse_xml root).rows
      = ((findallZones root).filter zoneValid).map
          (fun z => rowSet (rowSet (zoneRecordOf z) colIncident
              (parse_xml root).incident) colTimestamp
              (parse_xml root).timestamp) := by
    simp only [parse_xml]
    rw [hxml]
    simp [List.map_map]
  refine ⟨?_, ?_, htxtrows, hxmlrows⟩
  · rw [htxtrows]
    exact rows_share_scalar _ txtRecordOf _ _
      (fun l _ p hp => sixcols_ne p.1 (txtRecordOf_keys l p hp))
  · rw [hxmlrows]
    exact rows_share_scalar _ zoneRecordOf _ _
      (fun z _ p hp => sixcols_ne p.1 (zoneRecordOf_keys z p hp))

/-- C8: on the four-line end-to-end TXT input of scenario 1, the TXT parser
followed by the decision engine yields exactly one record with dose 12.5,
recommended action "Evacuate" and severity color "red". -/
theorem C8_end_to_end_scenario1 :
    (parse_txt e2eTxt).rows.length = 1 ∧
    (parse_txt e2eTxt).warnings = [] ∧
    rowGet ((parse_txt e2eTxt).rows.getD 0 []) colDose = some (.num 12.5) ∧
    (recommend_protective_actions (parse_txt e2eTxt).rows).isSome = true ∧
    rowGet (((recommend_protective_actions (parse_txt e2eTxt).rows).getD
        []).getD 0 []) colAction = some (.str "Evacuate".data) ∧
    rowGet (((recommend_protective_actions (parse_txt e2eTxt).rows).getD
        []).getD 0 []) colColor = some (.str "red".data) := by
  have h125 : (12.5 : ℚ) = Rat.divInt 25 2 := by norm_num [Rat.divInt]
  rw [h125]
  decide

/-- C10: the TXT header scan is an exclusive `if`/`elif`: a header line
containing `Incident:` sets the incident (the last such line winning over
earlier ones and surviving later keyless lines) and never touches the
timestamp, even if the same line also contains `Timestamp:`; a line
containing only `Timestamp:` sets the timestamp, the last such line
winning. -/
theorem C10_header_scan_exclusive_last_wins (pre post : List Str) (l : Str) :
    (pyContains "Incident:".data l = true →
      (∀ m ∈ post, pyContains "Incident:".data m = false) →
      (txtHeaderScan (pre ++ l :: post)).1
        = pyStrip (splitAfterKey "Incident:".data l)) ∧
    (pyContains "Incident:".data l = true →
      (txtHeaderScan (pre ++ [l])).2 = (txtHeaderScan pre).2) ∧
    (pyContains "Incident:".data l = false →
      pyContains "Timestamp:".data l = true →
      (∀ m ∈ post, pyContains "Timestamp:".data m = false) →
      (txtHeaderScan (pre ++ l :: post)).2
        = pyStrip (splitAfterKey "Timestamp:".data l)) := by
  refine ⟨?_, ?_, ?_⟩
  · intro hinc hpost
    rw [txtHeaderScan, List.foldl_append, List.foldl_cons]
    rw [headerFold_fst_const post _ hpost]
    rw [txtHeaderStep, hinc]
    simp
  · intro hinc
    rw [txtHeaderScan, txtHeaderScan, List.foldl_append, List.foldl_cons,
      List.foldl_nil]
    rw [txtHeaderStep, hinc]
    simp
  · intro hinc hts hpost
    rw [txtHeaderScan, List.foldl_append, List.foldl_cons]
    rw [headerFold_snd_const post _ hpost]
    rw [txtHeaderStep, hinc, hts]
    simp

/-- Witness for C10: a line carrying both keys updates only the incident,
overriding an earlier `Incident:` line and surviving a later
`Timestamp:`-only line. -/
theorem C10_witness :
    (txtHeaderScan (c10before ++ c10both :: c10after)).1
      = pyStrip (splitAfterKey "Incident:".data c10both) ∧
    (txtHeaderScan (c10before ++ [c10both])).2 = (txtHeaderScan c10before).2 ∧
    (txtHeaderScan (c10after ++ "Timestamp: 2030".data :: c10before)).2
      = pyStrip (splitAfterKey "Timestamp:".data "Timestamp: 2030".data) :=
  ⟨(C10_header_scan_exclusive_last_wins c10before c10after c10both).1
      (by decide) (by decide),
   (C10_header_scan_exclusive_last_wins c10before c10after c10both).2.1
      (by decide),
   (C10_header_scan_exclusive_last_wins c10after c10before
        "Timestamp: 2030".data).2.2 (by decide) (by decide) (by decide)⟩
